import Mathlib

/-!
The per-node maintenance orchestrator of kadmin.

A shallow embedding of `cmd/root.go`, `pkg/job/job.go` and `pkg/node/node.go`.

* A Go value of type `error` is an `Option Error` (`none` is `nil`); a Go pair
  `(T, error)` is an `Except Error T`.
* The cluster behind `kubernetes.Interface` is an explicit state `σ`; every API
  call takes the state and returns its result with the next state.
* The two polling loops (`for { ... }`) take a fuel argument, the number of polls
  allowed; `none` as a result means the loop is still polling.
* Log statements of the package functions are not modelled; those of `runKadmin`
  are, as a list of entries, since they record each node's outcome.
-/

namespace Kadmin

/-! ## Data model -/

/-- A Go `error` value, with the kinds of section 7 of the design and the two
shapes `fmt.Errorf` builds in `pkg/job`. -/
inductive Error where
  | notFound (what : String)
  | alreadyExists (what : String)
  | conflict (what : String)
  | transport (msg : String)
  | policy (msg : String)
  | message (msg : String)
  | wrapped (msg : String) (inner : Error)
  deriving DecidableEq, Repr

/-- A Go `map[string]string`, as an association list read by first match. -/
abbrev StrMap := List (String × String)

/-- Map read `m[k]`. -/
def StrMap.get : StrMap → String → Option String
  | [], _ => none
  | (k', v) :: rest, k => if k' = k then some v else StrMap.get rest k

/-- Map write `m[k] = v`. -/
def StrMap.set : StrMap → String → String → StrMap
  | [], k, v => [(k, v)]
  | (k', v') :: rest, k, v =>
    if k' = k then (k, v) :: rest else (k', v') :: StrMap.set rest k v

/-- The fields of `metav1.ObjectMeta` the program touches. A `nil` map is `none`. -/
structure ObjectMeta where
  Name : String
  Namespace : String
  Labels : Option StrMap
  Annotations : Option StrMap
  deriving DecidableEq, Repr

/-- A `corev1.Toleration`. -/
structure Toleration where
  Key : String
  Operator : String
  Value : String
  Effect : String
  deriving DecidableEq, Repr

/-- A `corev1.Taint`. -/
structure Taint where
  Key : String
  Value : String
  Effect : String
  deriving DecidableEq, Repr

/-- A `corev1.Container`. -/
structure Container where
  Name : String
  Image : String
  Command : List String
  deriving DecidableEq, Repr

/-- A `corev1.PodSpec`. -/
structure PodSpec where
  NodeSelector : Option StrMap
  Containers : List Container
  RestartPolicy : String
  Tolerations : List Toleration
  deriving DecidableEq, Repr

/-- A `corev1.PodTemplateSpec`. -/
structure PodTemplateSpec where
  Spec : PodSpec
  deriving DecidableEq, Repr

/-- A `batchv1.JobSpec`. -/
structure JobSpec where
  Template : PodTemplateSpec
  deriving DecidableEq, Repr

/-- A `batchv1.JobStatus`: the two `int32` counters the poller reads. -/
structure JobStatus where
  Succeeded : Int
  Failed : Int
  deriving DecidableEq, Repr

/-- A `batchv1.Job`. -/
structure Job where
  ObjectMeta : ObjectMeta
  Spec : JobSpec
  Status : JobStatus
  deriving DecidableEq, Repr

/-- A `corev1.PodCondition`; `Type'` is the Go field `Type`. -/
structure PodCondition where
  Type' : String
  Status : String
  deriving DecidableEq, Repr

/-- A `corev1.PodStatus`. -/
structure PodStatus where
  Phase : String
  Conditions : List PodCondition
  deriving DecidableEq, Repr

/-- A `corev1.Pod`; `NodeName` is the Go field `Spec.NodeName`. -/
structure Pod where
  ObjectMeta : ObjectMeta
  NodeName : String
  Status : PodStatus
  deriving DecidableEq, Repr

/-- A `corev1.NodeSpec`. -/
structure NodeSpec where
  Unschedulable : Bool
  Taints : List Taint
  deriving DecidableEq, Repr

/-- A `corev1.Node`. -/
structure Node where
  ObjectMeta : ObjectMeta
  Spec : NodeSpec
  deriving DecidableEq, Repr

/-! Constants of `k8s.io/api/core/v1`. -/

def PodSucceeded : String := "Succeeded"
def PodRunning : String := "Running"
def PodPending : String := "Pending"
def PodReady : String := "Ready"
def ConditionTrue : String := "True"
def RestartPolicyOnFailure : String := "OnFailure"
def TaintEffectNoExecute : String := "NoExecute"
def TaintEffectNoSchedule : String := "NoSchedule"
def TolerationOpExists : String := "Exists"
def TolerationOpEqual : String := "Equal"

/-- Kubernetes' rule for a toleration matching a taint
(`Toleration.ToleratesTaint` of `k8s.io/api/core/v1`): an empty effect matches
every effect, an empty key matches every key, and `Exists` ignores the value. -/
def Toleration.ToleratesTaint (t : Toleration) (taint : Taint) : Bool :=
  if t.Effect.length > 0 ∧ t.Effect ≠ taint.Effect then false
  else if t.Key.length > 0 ∧ t.Key ≠ taint.Key then false
  else if t.Operator = "" ∨ t.Operator = TolerationOpEqual then t.Value = taint.Value
  else if t.Operator = TolerationOpExists then true
  else false

/-! ## The cluster interface -/

/-- The calls the program makes on `kubernetes.Interface`, and `time.Sleep`, over a
world state `σ`. -/
structure Clientset (σ : Type) where
  /-- `BatchV1().Jobs(namespace).Get(ctx, name, opts)` -/
  JobsGet : String → String → σ → Except Error Job × σ
  /-- `BatchV1().Jobs(namespace).Create(ctx, job, opts)` -/
  JobsCreate : String → Job → σ → Except Error Job × σ
  /-- `CoreV1().Pods(namespace).List(ctx, ListOptions{FieldSelector: sel})` -/
  PodsList : String → String → σ → Except Error (List Pod) × σ
  /-- `CoreV1().Nodes().Get(ctx, name, opts)` -/
  NodesGet : String → σ → Except Error Node × σ
  /-- `CoreV1().Nodes().Update(ctx, node, opts)` -/
  NodesUpdate : Node → σ → Except Error Node × σ
  /-- `time.Sleep(n * time.Second)` -/
  Sleep : Nat → σ → σ

/-- One call on the cluster interface, with its arguments. -/
inductive ApiCall where
  | JobsGet (ns name : String)
  | JobsCreate (ns : String) (job : Job)
  | PodsList (ns fieldSelector : String)
  | NodesGet (name : String)
  | NodesUpdate (node : Node)
  | Sleep (seconds : Nat)
  deriving DecidableEq, Repr

/-- The same clientset, keeping next to the state the list of calls made so far. -/
def Clientset.traced {σ : Type} (cs : Clientset σ) : Clientset (σ × List ApiCall) where
  JobsGet := fun ns name st =>
    ((cs.JobsGet ns name st.1).1, ((cs.JobsGet ns name st.1).2, st.2 ++ [ApiCall.JobsGet ns name]))
  JobsCreate := fun ns job st =>
    ((cs.JobsCreate ns job st.1).1, ((cs.JobsCreate ns job st.1).2, st.2 ++ [ApiCall.JobsCreate ns job]))
  PodsList := fun ns sel st =>
    ((cs.PodsList ns sel st.1).1, ((cs.PodsList ns sel st.1).2, st.2 ++ [ApiCall.PodsList ns sel]))
  NodesGet := fun name st =>
    ((cs.NodesGet name st.1).1, ((cs.NodesGet name st.1).2, st.2 ++ [ApiCall.NodesGet name]))
  NodesUpdate := fun node st =>
    ((cs.NodesUpdate node st.1).1, ((cs.NodesUpdate node st.1).2, st.2 ++ [ApiCall.NodesUpdate node]))
  Sleep := fun n st => (cs.Sleep n st.1, st.2 ++ [ApiCall.Sleep n])

/-- The `error` half of a Go `(T, error)` result. -/
def errOf {α : Type} : Except Error α → Option Error
  | .ok _ => none
  | .error e => some e

/-! ## pkg/job -/

/-- The job object built in `CreateNodeJob` (job.go, lines 22-57). Fields the
composite literal leaves out have Go's zero value. -/
def nodeJob (nodeName jobName ns jobImage : String) (jobCommand : List String) : Job where
  ObjectMeta := {
    Name := jobName
    Namespace := ns
    Labels := some [("app", "kadmin")]
    Annotations := none }
  Spec := {
    Template := {
      Spec := {
        NodeSelector := some [("kubernetes.io/hostname", nodeName)]
        Containers := [{ Name := "example-job", Image := jobImage, Command := jobCommand }]
        RestartPolicy := RestartPolicyOnFailure
        Tolerations := [
          { Key := "", Operator := TolerationOpExists, Value := "", Effect := TaintEffectNoExecute },
          { Key := "", Operator := TolerationOpExists, Value := "", Effect := TaintEffectNoSchedule }] } } }
  Status := { Succeeded := 0, Failed := 0 }

/-- `job.CreateNodeJob` (job.go, lines 15-61). -/
def CreateNodeJob {σ : Type} (cs : Clientset σ) (nodeName jobName ns jobImage : String)
    (jobCommand : List String) (s : σ) : Option Error × σ :=
  match cs.JobsGet ns jobName s with
  | (.ok _, s1) => (none, s1)
  | (.error _, s1) =>
    match cs.JobsCreate ns (nodeJob nodeName jobName ns jobImage jobCommand) s1 with
    | (r, s2) => (errOf r, s2)

/-- `job.WaitForJobCompletion` (job.go, lines 63-83), allowed `fuel` polls.
The result `none` means that the loop has not returned within these polls. -/
def WaitForJobCompletion {σ : Type} (cs : Clientset σ) (jobName ns : String) :
    Nat → σ → Option (Option Error) × σ
  | 0, s => (none, s)
  | fuel + 1, s =>
    match cs.JobsGet ns jobName s with
    | (.error err, s1) =>
      (some (some (Error.wrapped ("failed to get job " ++ jobName ++ ": ") err)), s1)
    | (.ok job, s1) =>
      if job.Status.Succeeded > 0 then (some none, s1)
      else if job.Status.Failed > 0 then
        (some (some (Error.message ("job " ++ jobName ++ " failed"))), s1)
      else WaitForJobCompletion cs jobName ns fuel (cs.Sleep 5 s1)

/-! ## pkg/node -/

/-- The inner loop of `WaitForPodsReady` over one pod's conditions (node.go, lines
34-39), as the value of `allReady` after it: a `Ready` condition whose status is
not `True` sets it to false and leaves the loop. -/
def conditionsLoop : List PodCondition → Bool → Bool
  | [], allReady => allReady
  | condition :: rest, allReady =>
    if condition.Type' = PodReady ∧ condition.Status ≠ ConditionTrue then false
    else conditionsLoop rest allReady

/-- The loop of `WaitForPodsReady` over the listed pods (node.go, lines 25-40), as
the value of `allReady` after it. -/
def podsLoop : List Pod → Bool → Bool
  | [], allReady => allReady
  | pod :: rest, allReady =>
    if pod.Status.Phase = PodSucceeded then podsLoop rest allReady
    else if pod.Status.Phase ≠ PodRunning then false
    else podsLoop rest (conditionsLoop pod.Status.Conditions allReady)

/-- `node.WaitForPodsReady` (node.go, lines 14-48), allowed `fuel` polls.
The result `none` means that the loop has not returned within these polls. -/
def WaitForPodsReady {σ : Type} (cs : Clientset σ) (nodeName : String) :
    Nat → σ → Option (Option Error) × σ
  | 0, s => (none, s)
  | fuel + 1, s =>
    match cs.PodsList "kube-system" ("spec.nodeName=" ++ nodeName) s with
    | (.error err, s1) => (some (some err), s1)
    | (.ok pods, s1) =>
      if podsLoop pods true then (some none, s1)
      else WaitForPodsReady cs nodeName fuel (cs.Sleep 10 s1)

/-- The node `AnnotateNode` hands to `Update` (node.go, lines 56-59). -/
def annotated (node : Node) (key value : String) : Node :=
  let annotations : StrMap :=
    match node.ObjectMeta.Annotations with
    | none => []
    | some m => m
  { node with ObjectMeta := { node.ObjectMeta with Annotations := some (annotations.set key value) } }

/-- `node.AnnotateNode` (node.go, lines 50-63). -/
def AnnotateNode {σ : Type} (cs : Clientset σ) (nodeName key value : String) (s : σ) :
    Option Error × σ :=
  match cs.NodesGet nodeName s with
  | (.error err, s1) => (some err, s1)
  | (.ok node, s1) =>
    match cs.NodesUpdate (annotated node key value) s1 with
    | (r, s2) => (errOf r, s2)

/-! ## An in-memory cluster -/

/-- A cluster held in memory: its jobs, nodes and pods. Jobs are keyed by namespace
and name, nodes by name. -/
structure Cluster where
  jobs : List Job
  nodes : List Node
  pods : List Pod
  deriving DecidableEq, Repr

/-- Whether a job is the one stored under a namespace and name. -/
def Job.named (ns name : String) (job : Job) : Bool :=
  job.ObjectMeta.Namespace = ns ∧ job.ObjectMeta.Name = name

/-- The job stored under a namespace and name, if any. -/
def Cluster.findJob (c : Cluster) (ns name : String) : Option Job :=
  c.jobs.find? (Job.named ns name)

/-- The number of job objects stored under a namespace and name. -/
def Cluster.countJobs (c : Cluster) (ns name : String) : Nat :=
  (c.jobs.filter (Job.named ns name)).length

/-- Replace the stored node of the same name. -/
def replaceNode (node : Node) : List Node → List Node
  | [] => []
  | n :: rest =>
    if n.ObjectMeta.Name = node.ObjectMeta.Name then node :: rest else n :: replaceNode node rest

/-- The clientset of the in-memory cluster: lookups and creates reflect the stored
objects, and no call fails for a reason other than the object's absence or
presence. -/
def Cluster.clientset : Clientset Cluster where
  JobsGet := fun ns name c =>
    match c.findJob ns name with
    | some job => (.ok job, c)
    | none => (.error (Error.notFound name), c)
  JobsCreate := fun ns job c =>
    match c.findJob ns job.ObjectMeta.Name with
    | some _ => (.error (Error.alreadyExists job.ObjectMeta.Name), c)
    | none =>
      let stored : Job := { job with ObjectMeta := { job.ObjectMeta with Namespace := ns } }
      (.ok stored, { c with jobs := c.jobs ++ [stored] })
  PodsList := fun ns sel c =>
    (.ok (c.pods.filter (fun pod =>
      decide (pod.ObjectMeta.Namespace = ns ∧ "spec.nodeName=" ++ pod.NodeName = sel))), c)
  NodesGet := fun name c =>
    match c.nodes.find? (fun n => decide (n.ObjectMeta.Name = name)) with
    | some node => (.ok node, c)
    | none => (.error (Error.notFound name), c)
  NodesUpdate := fun node c =>
    match c.nodes.find? (fun n => decide (n.ObjectMeta.Name = node.ObjectMeta.Name)) with
    | some _ => (.ok node, { c with nodes := replaceNode node c.nodes })
    | none => (.error (Error.notFound node.ObjectMeta.Name), c)
  Sleep := fun _ c => c

/-- A cluster that answers the `k`-th status fetch (counting from zero) with the
status `feed k`, whatever job is asked for; its state is the number of fetches
answered so far. Every other call fails. -/
def statusFeed (feed : Nat → JobStatus) : Clientset Nat where
  JobsGet := fun ns name k =>
    (.ok { (nodeJob "" name ns "" []) with Status := feed k }, k + 1)
  JobsCreate := fun _ _ k => (.error (Error.transport "unavailable"), k)
  PodsList := fun _ _ k => (.error (Error.transport "unavailable"), k)
  NodesGet := fun _ k => (.error (Error.transport "unavailable"), k)
  NodesUpdate := fun _ k => (.error (Error.transport "unavailable"), k)
  Sleep := fun _ k => k

/-! ## cmd/root.go -/

/-- The functions `runKadmin` calls, at their call boundary, over a world state `σ`:
each returns its Go result and the next state. `Now` is
`time.Now().Format(time.RFC3339)`. -/
structure Steps (σ : Type) where
  /-- `client.NewKubeClient()` -/
  NewKubeClient : σ → Option Error × σ
  /-- `clientset.CoreV1().Nodes().List(ctx, ListOptions{})` -/
  NodesList : σ → Except Error (List Node) × σ
  /-- `drain.DrainNode(clientset, nodeName)` -/
  DrainNode : String → σ → Option Error × σ
  /-- `job.CreateNodeJob(clientset, nodeName, jobName, namespace, jobImage, jobCommand)` -/
  CreateNodeJob : String → String → String → String → List String → σ → Option Error × σ
  /-- `job.WaitForJobCompletion(clientset, jobName, namespace)` -/
  WaitForJobCompletion : String → String → σ → Option Error × σ
  /-- `drain.UncordonNode(clientset, nodeName)` -/
  UncordonNode : String → σ → Option Error × σ
  /-- `kNode.WaitForPodsReady(clientset, nodeName)` -/
  WaitForPodsReady : String → σ → Option Error × σ
  /-- `kNode.AnnotateNode(clientset, nodeName, key, value)` -/
  AnnotateNode : String → String → String → σ → Option Error × σ
  /-- `time.Now().Format(time.RFC3339)` -/
  Now : σ → String × σ

/-- One invocation of a per-node step, with its arguments. -/
inductive Call where
  | DrainNode (nodeName : String)
  | CreateNodeJob (nodeName jobName ns jobImage : String) (jobCommand : List String)
  | WaitForJobCompletion (jobName ns : String)
  | UncordonNode (nodeName : String)
  | WaitForPodsReady (nodeName : String)
  | AnnotateNode (nodeName key value : String)
  deriving DecidableEq, Repr

/-- The record of a run: the per-node steps invoked, in order, each with the
`error` it returned. -/
abbrev Trace := List (Call × Option Error)

/-- The same steps, keeping next to the state the record of the per-node steps
invoked so far. -/
def Steps.traced {σ : Type} (st : Steps σ) : Steps (σ × Trace) where
  NewKubeClient := fun x => ((st.NewKubeClient x.1).1, ((st.NewKubeClient x.1).2, x.2))
  NodesList := fun x => ((st.NodesList x.1).1, ((st.NodesList x.1).2, x.2))
  DrainNode := fun n x =>
    ((st.DrainNode n x.1).1,
      ((st.DrainNode n x.1).2, x.2 ++ [(Call.DrainNode n, (st.DrainNode n x.1).1)]))
  CreateNodeJob := fun n j ns img cmd x =>
    ((st.CreateNodeJob n j ns img cmd x.1).1,
      ((st.CreateNodeJob n j ns img cmd x.1).2,
        x.2 ++ [(Call.CreateNodeJob n j ns img cmd, (st.CreateNodeJob n j ns img cmd x.1).1)]))
  WaitForJobCompletion := fun j ns x =>
    ((st.WaitForJobCompletion j ns x.1).1,
      ((st.WaitForJobCompletion j ns x.1).2,
        x.2 ++ [(Call.WaitForJobCompletion j ns, (st.WaitForJobCompletion j ns x.1).1)]))
  UncordonNode := fun n x =>
    ((st.UncordonNode n x.1).1,
      ((st.UncordonNode n x.1).2, x.2 ++ [(Call.UncordonNode n, (st.UncordonNode n x.1).1)]))
  WaitForPodsReady := fun n x =>
    ((st.WaitForPodsReady n x.1).1,
      ((st.WaitForPodsReady n x.1).2,
        x.2 ++ [(Call.WaitForPodsReady n, (st.WaitForPodsReady n x.1).1)]))
  AnnotateNode := fun n k v x =>
    ((st.AnnotateNode n k v x.1).1,
      ((st.AnnotateNode n k v x.1).2,
        x.2 ++ [(Call.AnnotateNode n k v, (st.AnnotateNode n k v x.1).1)]))
  Now := fun x => ((st.Now x.1).1, ((st.Now x.1).2, x.2))

/-- The package-level flag variables `namespace`, `jobImage`, `jobCommand`
(root.go, lines 17-21). -/
structure Config where
  ns : String
  jobImage : String
  jobCommand : List String
  deriving DecidableEq, Repr

/-- The flag defaults set in `init` (root.go, lines 41-43). -/
def Config.defaults : Config :=
  { ns := "default", jobImage := "busybox:latest",
    jobCommand := ["sh", "-c", "echo Hello && sleep 5"] }

/-- The level of a log event. -/
inductive Level where
  | info
  | error
  | fatal
  deriving DecidableEq, Repr

/-- One log event: `log.<Level>().Err(err).Str("node", node).Msg(msg)`. -/
structure LogEntry where
  level : Level
  err : Option Error
  node : Option String
  msg : String
  deriving DecidableEq, Repr

/-- The event `log.Info().Str("node", nodeName).Msg(msg)`. -/
def logInfo (nodeName msg : String) : LogEntry :=
  ⟨Level.info, none, some nodeName, msg⟩

/-- The event `log.Error().Err(err).Str("node", nodeName).Msg(msg)`. -/
def logError (err : Error) (nodeName msg : String) : LogEntry :=
  ⟨Level.error, some err, some nodeName, msg⟩

/-- How one pass through the body of the node loop ends: by going on to the next
node (a `continue`, or the end of the body), or by `os.Exit(code)`. -/
inductive Ctl where
  | next
  | exit (code : Nat)
  deriving DecidableEq, Repr

/-- The body of the node loop of `runKadmin` (root.go, lines 70-110) for one node. -/
def runKadminBody {σ : Type} (st : Steps σ) (cfg : Config) (nodeName : String)
    (s : σ) (lg : List LogEntry) : Ctl × σ × List LogEntry :=
  let lg := lg ++ [logInfo nodeName "Processing node"]
  match st.DrainNode nodeName s with
  | (some err, s) =>
    (Ctl.next, s, lg ++ [logError err nodeName "Failed to drain node"])
  | (none, s) =>
  let jobName := "job-on-" ++ nodeName
  match st.CreateNodeJob nodeName jobName cfg.ns cfg.jobImage cfg.jobCommand s with
  | (some err, s) =>
    let lg := lg ++ [logError err nodeName "Failed to create job for node"]
    match st.UncordonNode nodeName s with
    | (some err, s) =>
      (Ctl.exit 1, s, lg ++ [logError err nodeName "Failed to uncordon node"])
    | (none, s) => (Ctl.exit 1, s, lg)
  | (none, s) =>
  match st.WaitForJobCompletion jobName cfg.ns s with
  | (some err, s) =>
    (Ctl.next, s,
      lg ++ [logError err nodeName "Failed to wait for job completion"])
  | (none, s) =>
  match st.UncordonNode nodeName s with
  | (some err, s) =>
    (Ctl.next, s, lg ++ [logError err nodeName "Failed to uncordon node"])
  | (none, s) =>
  match st.WaitForPodsReady nodeName s with
  | (some err, s) =>
    (Ctl.next, s,
      lg ++ [logError err nodeName "Failed to wait for pods to become ready"])
  | (none, s) =>
  match st.Now s with
  | (now, s) =>
  match st.AnnotateNode nodeName "job-complete" now s with
  | (some err, s) =>
    (Ctl.next, s, lg ++ [logError err nodeName "Failed to annotate node"])
  | (none, s) =>
    (Ctl.next, s, lg ++ [logInfo nodeName "Successfully completed processing"])

/-- The node loop of `runKadmin` (root.go, lines 57-111) over the names of the
listed nodes, in the order listed. -/
def runKadminLoop {σ : Type} (st : Steps σ) (cfg : Config) :
    List String → σ → List LogEntry → Ctl × σ × List LogEntry
  | [], s, lg => (Ctl.next, s, lg)
  | nodeName :: rest, s, lg =>
    match runKadminBody st cfg nodeName s lg with
    | (Ctl.next, s1, lg1) => runKadminLoop st cfg rest s1 lg1
    | (Ctl.exit code, s1, lg1) => (Ctl.exit code, s1, lg1)

/-- `runKadmin` (root.go, lines 46-112), as the exit status of the process with the
final state and log: `log.Fatal` and `os.Exit(1)` give status 1, a return gives 0. -/
def runKadmin {σ : Type} (st : Steps σ) (cfg : Config) (s : σ) : Nat × σ × List LogEntry :=
  match st.NewKubeClient s with
  | (some err, s) =>
    (1, s, [⟨Level.fatal, some err, none, "Failed to create Kubernetes client"⟩])
  | (none, s) =>
  match st.NodesList s with
  | (.error err, s) => (1, s, [⟨Level.fatal, some err, none, "Error retrieving nodes"⟩])
  | (.ok nodes, s) =>
    match runKadminLoop st cfg (nodes.map (fun node => node.ObjectMeta.Name)) s [] with
    | (Ctl.next, s, lg) => (0, s, lg)
    | (Ctl.exit code, s, lg) => (code, s, lg)

/-- Steps over a world without state: the client is built, the listing returns
`listed`, the clock reads `now`, and each per-node step returns what `result` gives
for that call. -/
def Steps.scripted (listed : List Node) (now : String) (result : Call → Option Error) :
    Steps Unit where
  NewKubeClient := fun _ => (none, ())
  NodesList := fun _ => (.ok listed, ())
  DrainNode := fun n _ => (result (Call.DrainNode n), ())
  CreateNodeJob := fun n j ns img cmd _ => (result (Call.CreateNodeJob n j ns img cmd), ())
  WaitForJobCompletion := fun j ns _ => (result (Call.WaitForJobCompletion j ns), ())
  UncordonNode := fun n _ => (result (Call.UncordonNode n), ())
  WaitForPodsReady := fun n _ => (result (Call.WaitForPodsReady n), ())
  AnnotateNode := fun n k v _ => (result (Call.AnnotateNode n k v), ())
  Now := fun _ => (now, ())

/-- A node object with the given name and nothing else set. -/
def Node.ofName (name : String) : Node :=
  { ObjectMeta := { Name := name, Namespace := "", Labels := none, Annotations := none },
    Spec := { Unschedulable := false, Taints := [] } }

/-- Whether a trace entry is a dispatch (`CreateNodeJob`) that returned an error. -/
def failedDispatch : Call × Option Error → Bool
  | (Call.CreateNodeJob _ _ _ _ _, some _) => true
  | _ => false

/-- The node a trace entry drains, when the entry is a `DrainNode` call. -/
def drainedNode : Call × Option Error → Option String
  | (Call.DrainNode n, _) => some n
  | _ => none

/-- The trace of a node on which every step succeeds: the six steps in order. -/
def fullTrace (cfg : Config) (nodeName now : String) : Trace :=
  [(Call.DrainNode nodeName, none),
   (Call.CreateNodeJob nodeName ("job-on-" ++ nodeName) cfg.ns cfg.jobImage cfg.jobCommand, none),
   (Call.WaitForJobCompletion ("job-on-" ++ nodeName) cfg.ns, none),
   (Call.UncordonNode nodeName, none),
   (Call.WaitForPodsReady nodeName, none),
   (Call.AnnotateNode nodeName "job-complete" now, none)]

/-- A pod of namespace `kube-system` on a node, with a phase and conditions. -/
def Pod.system (name nodeName phase : String) (conditions : List PodCondition) : Pod :=
  { ObjectMeta := { Name := name, Namespace := "kube-system", Labels := none, Annotations := none },
    NodeName := nodeName,
    Status := { Phase := phase, Conditions := conditions } }

/-- A script under which every dispatch fails and every other step succeeds. -/
def dispatchFails : Call → Option Error
  | Call.CreateNodeJob _ _ _ _ _ => some (Error.transport "connection refused")
  | _ => none

/-- A script under which every dispatch and every uncordon fails and every other
step succeeds. -/
def dispatchAndUncordonFail : Call → Option Error
  | Call.CreateNodeJob _ _ _ _ _ => some (Error.transport "connection refused")
  | Call.UncordonNode _ => some (Error.transport "connection reset")
  | _ => none

/-- A script under which the one call `bad` fails with `e` and every other step
succeeds. -/
def failing (bad : Call) (e : Error) : Call → Option Error :=
  fun c => if c = bad then some e else none

/-! ## Theorems: pkg/job -/

/-- The result and the calls of `CreateNodeJob` when the lookup finds a job. -/
theorem CreateNodeJob_traced_found {σ : Type} (cs : Clientset σ)
    (nodeName jobName ns jobImage : String) (jobCommand : List String) (s s1 : σ)
    (tr : List ApiCall) (job : Job) (hget : cs.JobsGet ns jobName s = (.ok job, s1)) :
    CreateNodeJob cs.traced nodeName jobName ns jobImage jobCommand (s, tr)
      = (none, (s1, tr ++ [ApiCall.JobsGet ns jobName])) := by
  simp [CreateNodeJob, Clientset.traced, hget]

/-- The result and the calls of `CreateNodeJob` when the lookup returns an error. -/
theorem CreateNodeJob_traced_missing {σ : Type} (cs : Clientset σ)
    (nodeName jobName ns jobImage : String) (jobCommand : List String) (s s1 : σ)
    (tr : List ApiCall) (e : Error) (hget : cs.JobsGet ns jobName s = (.error e, s1)) :
    CreateNodeJob cs.traced nodeName jobName ns jobImage jobCommand (s, tr)
      = (errOf (cs.JobsCreate ns (nodeJob nodeName jobName ns jobImage jobCommand) s1).1,
          ((cs.JobsCreate ns (nodeJob nodeName jobName ns jobImage jobCommand) s1).2,
            tr ++ [ApiCall.JobsGet ns jobName,
              ApiCall.JobsCreate ns (nodeJob nodeName jobName ns jobImage jobCommand)])) := by
  simp [CreateNodeJob, Clientset.traced, hget]

/-- C10: `CreateNodeJob` takes every failed lookup, of whatever kind, for an absent
task. A create call is made iff the lookup returned an error; an error is
returned iff the lookup and the create both failed; and an error returned is the
create's error, never the lookup's. -/
theorem CreateNodeJob_any_lookup_error_creates {σ : Type} (cs : Clientset σ)
    (nodeName jobName ns jobImage : String) (jobCommand : List String) (s : σ) :
    ((∃ job, ApiCall.JobsCreate ns job ∈
        (CreateNodeJob cs.traced nodeName jobName ns jobImage jobCommand (s, [])).2.2)
      ↔ errOf (cs.JobsGet ns jobName s).1 ≠ none) ∧
    ((CreateNodeJob cs nodeName jobName ns jobImage jobCommand s).1 ≠ none
      ↔ errOf (cs.JobsGet ns jobName s).1 ≠ none ∧
        errOf (cs.JobsCreate ns (nodeJob nodeName jobName ns jobImage jobCommand)
          (cs.JobsGet ns jobName s).2).1 ≠ none) ∧
    (∀ e, (CreateNodeJob cs nodeName jobName ns jobImage jobCommand s).1 = some e →
      errOf (cs.JobsCreate ns (nodeJob nodeName jobName ns jobImage jobCommand)
        (cs.JobsGet ns jobName s).2).1 = some e) := by
  rcases hget : cs.JobsGet ns jobName s with ⟨r, s1⟩
  cases r with
  | ok job =>
    rw [CreateNodeJob_traced_found cs nodeName jobName ns jobImage jobCommand s s1 [] job hget]
    simp [CreateNodeJob, hget, errOf]
  | error e =>
    rw [CreateNodeJob_traced_missing cs nodeName jobName ns jobImage jobCommand s s1 [] e hget]
    simp [CreateNodeJob, hget, errOf]

/-- C9: when the lookup finds no task (it returns an error), the object that
`CreateNodeJob` submits for creation has the given name and namespace, one
container with the given image and command, a node selector on the host name
equal to the given node, restart policy `OnFailure`, and tolerations under which
every taint of effect `NoExecute` or `NoSchedule` is tolerated, whatever its key
and value. -/
theorem CreateNodeJob_submits_pinned_job {σ : Type} (cs : Clientset σ)
    (nodeName jobName ns jobImage : String) (jobCommand : List String) (s : σ)
    (hget : errOf (cs.JobsGet ns jobName s).1 ≠ none) :
    ∃ job container,
      (CreateNodeJob cs.traced nodeName jobName ns jobImage jobCommand (s, [])).2.2
        = [ApiCall.JobsGet ns jobName, ApiCall.JobsCreate ns job] ∧
      job.ObjectMeta.Name = jobName ∧ job.ObjectMeta.Namespace = ns ∧
      job.Spec.Template.Spec.Containers = [container] ∧
      container.Image = jobImage ∧ container.Command = jobCommand ∧
      job.Spec.Template.Spec.NodeSelector = some [("kubernetes.io/hostname", nodeName)] ∧
      job.Spec.Template.Spec.RestartPolicy = "OnFailure" ∧
      (∀ taint : Taint, taint.Effect = "NoExecute" ∨ taint.Effect = "NoSchedule" →
        ∃ t ∈ job.Spec.Template.Spec.Tolerations, t.ToleratesTaint taint = true) := by
  rcases h : cs.JobsGet ns jobName s with ⟨r, s1⟩
  cases r with
  | ok job => simp [h, errOf] at hget
  | error e =>
    refine ⟨nodeJob nodeName jobName ns jobImage jobCommand,
      { Name := "example-job", Image := jobImage, Command := jobCommand }, ?_⟩
    rw [CreateNodeJob_traced_missing cs nodeName jobName ns jobImage jobCommand s s1 [] e h]
    refine ⟨by simp, rfl, rfl, rfl, rfl, rfl, rfl, rfl, ?_⟩
    intro taint ht
    rcases ht with ht | ht
    · refine ⟨{ Key := "", Operator := "Exists", Value := "", Effect := "NoExecute" }, ?_, ?_⟩
      · simp [nodeJob, TolerationOpExists, TaintEffectNoExecute]
      · simp [Toleration.ToleratesTaint, ht, TolerationOpExists, TolerationOpEqual]
    · refine ⟨{ Key := "", Operator := "Exists", Value := "", Effect := "NoSchedule" }, ?_, ?_⟩
      · simp [nodeJob, TolerationOpExists, TaintEffectNoSchedule]
      · simp [Toleration.ToleratesTaint, ht, TolerationOpExists, TolerationOpEqual]

/-- Witness of C9: on the cluster that holds nothing, the lookup of `job-on-n1` in
`default` fails and the pinned job is submitted. -/
theorem CreateNodeJob_submits_pinned_job_witness :
    errOf ((Cluster.clientset.JobsGet "default" "job-on-n1" ⟨[], [], []⟩).1) ≠ none ∧
    ∃ job container,
      (CreateNodeJob Cluster.clientset.traced "n1" "job-on-n1" "default" "busybox:latest"
        ["sh"] (⟨[], [], []⟩, [])).2.2
        = [ApiCall.JobsGet "default" "job-on-n1", ApiCall.JobsCreate "default" job] ∧
      job.ObjectMeta.Name = "job-on-n1" ∧ job.ObjectMeta.Namespace = "default" ∧
      job.Spec.Template.Spec.Containers = [container] ∧
      container.Image = "busybox:latest" ∧ container.Command = ["sh"] ∧
      job.Spec.Template.Spec.NodeSelector = some [("kubernetes.io/hostname", "n1")] ∧
      job.Spec.Template.Spec.RestartPolicy = "OnFailure" ∧
      (∀ taint : Taint, taint.Effect = "NoExecute" ∨ taint.Effect = "NoSchedule" →
        ∃ t ∈ job.Spec.Template.Spec.Tolerations, t.ToleratesTaint taint = true) :=
  ⟨by simp [Cluster.clientset, Cluster.findJob, errOf],
    CreateNodeJob_submits_pinned_job Cluster.clientset "n1" "job-on-n1" "default"
      "busybox:latest" ["sh"] ⟨[], [], []⟩
      (by simp [Cluster.clientset, Cluster.findJob, errOf])⟩

/-- The job `CreateNodeJob` builds is stored under the namespace and name given. -/
theorem nodeJob_named (nodeName jobName ns jobImage : String) (jobCommand : List String) :
    Job.named ns jobName (nodeJob nodeName jobName ns jobImage jobCommand) = true := by
  simp [Job.named, nodeJob]

/-- No job is found under a name exactly when none is counted under it. -/
theorem findJob_eq_none_iff (c : Cluster) (ns name : String) :
    c.findJob ns name = none ↔ c.countJobs ns name = 0 := by
  simp [Cluster.findJob, Cluster.countJobs, List.filter_eq_nil_iff]

/-- C3: dispatch is idempotent on the in-memory cluster. Two calls of
`CreateNodeJob` with the same arguments both return success; the second makes the
lookup only and leaves the state of the first unchanged; when no job was stored
under the name before, or one was, exactly one is afterwards; and when one was, the
first call too makes the lookup only and leaves the state unchanged. -/
theorem CreateNodeJob_idempotent (c : Cluster) (nodeName jobName ns jobImage : String)
    (jobCommand : List String) :
    (CreateNodeJob Cluster.clientset.traced nodeName jobName ns jobImage jobCommand (c, [])).1
      = none ∧
    (CreateNodeJob Cluster.clientset.traced nodeName jobName ns jobImage jobCommand
      ((CreateNodeJob Cluster.clientset.traced nodeName jobName ns jobImage jobCommand
        (c, [])).2.1, []))
      = (none, ((CreateNodeJob Cluster.clientset.traced nodeName jobName ns jobImage jobCommand
        (c, [])).2.1, [ApiCall.JobsGet ns jobName])) ∧
    (c.countJobs ns jobName ≤ 1 →
      ((CreateNodeJob Cluster.clientset.traced nodeName jobName ns jobImage jobCommand
        (c, [])).2.1).countJobs ns jobName = 1) ∧
    (c.countJobs ns jobName ≠ 0 →
      CreateNodeJob Cluster.clientset.traced nodeName jobName ns jobImage jobCommand (c, [])
        = (none, (c, [ApiCall.JobsGet ns jobName]))) := by
  have hn := nodeJob_named nodeName jobName ns jobImage jobCommand
  cases hf : c.findJob ns jobName with
  | some job =>
    have hget : Cluster.clientset.JobsGet ns jobName c = (.ok job, c) := by
      simp [Cluster.clientset, hf]
    have hc : c.countJobs ns jobName ≠ 0 := by
      rw [Ne, ← findJob_eq_none_iff, hf]; simp
    rw [CreateNodeJob_traced_found _ nodeName jobName ns jobImage jobCommand c c [] job hget]
    simp only [List.nil_append]
    rw [CreateNodeJob_traced_found _ nodeName jobName ns jobImage jobCommand c c [] job hget]
    refine ⟨trivial, by simp, fun hle => ?_, fun _ => by simp⟩
    show c.countJobs ns jobName = 1
    omega
  | none =>
    have hget : Cluster.clientset.JobsGet ns jobName c = (.error (Error.notFound jobName), c) := by
      simp [Cluster.clientset, hf]
    have hc : c.countJobs ns jobName = 0 := (findJob_eq_none_iff c ns jobName).1 hf
    have hname : (nodeJob nodeName jobName ns jobImage jobCommand).ObjectMeta.Name = jobName := rfl
    have hcreate : Cluster.clientset.JobsCreate ns
        (nodeJob nodeName jobName ns jobImage jobCommand) c
        = (.ok (nodeJob nodeName jobName ns jobImage jobCommand),
            { c with jobs := c.jobs ++ [nodeJob nodeName jobName ns jobImage jobCommand] }) := by
      simp [Cluster.clientset, hname, hf]
      simp [nodeJob]
    rw [CreateNodeJob_traced_missing _ nodeName jobName ns jobImage jobCommand c c [] _ hget]
    rw [hcreate]
    simp only [List.nil_append, errOf]
    have hf2 : Cluster.findJob
        { c with jobs := c.jobs ++ [nodeJob nodeName jobName ns jobImage jobCommand] } ns jobName
        = some (nodeJob nodeName jobName ns jobImage jobCommand) := by
      simp only [Cluster.findJob] at hf ⊢
      rw [List.find?_append, hf]
      simp [List.find?, hn]
    have hget2 : Cluster.clientset.JobsGet ns jobName
        { c with jobs := c.jobs ++ [nodeJob nodeName jobName ns jobImage jobCommand] }
        = (.ok (nodeJob nodeName jobName ns jobImage jobCommand),
            { c with jobs := c.jobs ++ [nodeJob nodeName jobName ns jobImage jobCommand] }) := by
      simp [Cluster.clientset, hf2]
    rw [CreateNodeJob_traced_found _ nodeName jobName ns jobImage jobCommand _ _ [] _ hget2]
    refine ⟨trivial, by simp, ?_, fun h => absurd hc h⟩
    intro _
    simp only [Cluster.countJobs] at hc ⊢
    rw [List.filter_append, List.length_append, hc]
    simp [List.filter, hn]

/-- Witness of C3 (scenario D and its converse): on the cluster that holds nothing,
two dispatches leave exactly one job under the name. -/
theorem CreateNodeJob_idempotent_witness :
    (Cluster.countJobs ⟨[], [], []⟩ "default" "job-on-n4" ≤ 1) ∧
    ((CreateNodeJob Cluster.clientset.traced "n4" "job-on-n4" "default" "busybox:latest" ["sh"]
        (⟨[], [], []⟩, [])).2.1).countJobs "default" "job-on-n4" = 1 :=
  ⟨by simp [Cluster.countJobs],
    (CreateNodeJob_idempotent ⟨[], [], []⟩ "n4" "job-on-n4" "default" "busybox:latest"
      ["sh"]).2.2.1 (by simp [Cluster.countJobs])⟩

/-- One poll of `WaitForJobCompletion` on a status feed. -/
theorem WaitForJobCompletion_feed_step (feed : Nat → JobStatus) (jobName ns : String)
    (fuel k : Nat) :
    WaitForJobCompletion (statusFeed feed) jobName ns (fuel + 1) k
      = if 0 < (feed k).Succeeded then (some none, k + 1)
        else if 0 < (feed k).Failed then
          (some (some (Error.message ("job " ++ jobName ++ " failed"))), k + 1)
        else WaitForJobCompletion (statusFeed feed) jobName ns fuel (k + 1) := by
  simp [WaitForJobCompletion, statusFeed]

/-- On a status feed read from position `k`, the poller returns success within
`fuel` polls iff some status among the next `fuel` has a positive succeeded count
and every status before it has neither count positive. -/
theorem WaitForJobCompletion_feed_success (feed : Nat → JobStatus) (jobName ns : String) :
    ∀ fuel k, (WaitForJobCompletion (statusFeed feed) jobName ns fuel k).1 = some none ↔
      ∃ i, k ≤ i ∧ i < k + fuel ∧ 0 < (feed i).Succeeded ∧
        ∀ j, k ≤ j → j < i → ¬ 0 < (feed j).Succeeded ∧ ¬ 0 < (feed j).Failed := by
  intro fuel
  induction fuel with
  | zero =>
    intro k
    simp only [WaitForJobCompletion]
    constructor
    · intro h; cases h
    · rintro ⟨i, h1, h2, _⟩; omega
  | succ fuel ih =>
    intro k
    rw [WaitForJobCompletion_feed_step]
    by_cases hs : 0 < (feed k).Succeeded
    · simp only [hs, if_true, true_iff]
      exact ⟨k, le_refl k, by omega, hs, fun j h1 h2 => by omega⟩
    · by_cases hf : 0 < (feed k).Failed
      · simp only [hs, hf, if_true, if_false]
        constructor
        · intro h; cases h
        · rintro ⟨i, h1, _, h3, h4⟩
          rcases Nat.eq_or_lt_of_le h1 with h | h
          · subst h; exact absurd h3 hs
          · exact absurd hf (h4 k (le_refl k) h).2
      · simp only [hs, hf, if_false]
        rw [ih (k + 1)]
        constructor
        · rintro ⟨i, h1, h2, h3, h4⟩
          refine ⟨i, by omega, by omega, h3, fun j hj1 hj2 => ?_⟩
          rcases Nat.eq_or_lt_of_le hj1 with h | h
          · subst h; exact ⟨hs, hf⟩
          · exact h4 j h hj2
        · rintro ⟨i, h1, h2, h3, h4⟩
          rcases Nat.eq_or_lt_of_le h1 with h | h
          · subst h; exact absurd h3 hs
          · exact ⟨i, h, by omega, h3, fun j hj1 hj2 => h4 j (by omega) hj2⟩

/-- On a status feed read from position `k`, the poller returns an error within
`fuel` polls iff the error is the task-failed one and some status among the next
`fuel` has a positive failed count, no positive succeeded count, and every status
before it has neither count positive. -/
theorem WaitForJobCompletion_feed_failure (feed : Nat → JobStatus) (jobName ns : String)
    (e : Error) :
    ∀ fuel k, (WaitForJobCompletion (statusFeed feed) jobName ns fuel k).1 = some (some e) ↔
      e = Error.message ("job " ++ jobName ++ " failed") ∧
      ∃ i, k ≤ i ∧ i < k + fuel ∧ 0 < (feed i).Failed ∧ ¬ 0 < (feed i).Succeeded ∧
        ∀ j, k ≤ j → j < i → ¬ 0 < (feed j).Succeeded ∧ ¬ 0 < (feed j).Failed := by
  intro fuel
  induction fuel with
  | zero =>
    intro k
    simp only [WaitForJobCompletion]
    constructor
    · intro h; cases h
    · rintro ⟨_, i, h1, h2, _⟩; omega
  | succ fuel ih =>
    intro k
    rw [WaitForJobCompletion_feed_step]
    by_cases hs : 0 < (feed k).Succeeded
    · simp only [hs, if_true]
      constructor
      · intro h; cases h
      · rintro ⟨_, i, h1, _, h3, h4, h5⟩
        rcases Nat.eq_or_lt_of_le h1 with h | h
        · subst h; exact absurd hs h4
        · exact absurd hs (h5 k (le_refl k) h).1
    · by_cases hf : 0 < (feed k).Failed
      · simp only [hs, hf, if_true, if_false]
        constructor
        · intro h
          simp only [Option.some.injEq] at h
          exact ⟨h.symm, k, le_refl k, by omega, hf, hs, fun j h1 h2 => by omega⟩
        · rintro ⟨he, _⟩
          rw [he]
      · simp only [hs, hf, if_false]
        rw [ih (k + 1)]
        constructor
        · rintro ⟨he, i, h1, h2, h3, h4, h5⟩
          refine ⟨he, i, by omega, by omega, h3, h4, fun j hj1 hj2 => ?_⟩
          rcases Nat.eq_or_lt_of_le hj1 with h | h
          · subst h; exact ⟨hs, hf⟩
          · exact h5 j h hj2
        · rintro ⟨he, i, h1, h2, h3, h4, h5⟩
          rcases Nat.eq_or_lt_of_le h1 with h | h
          · subst h; exact absurd h3 hf
          · exact ⟨he, i, h, by omega, h3, h4, fun j hj1 hj2 => h5 j (by omega) hj2⟩

/-- C4, as the code has it: over every feed of fetched statuses, one per poll,
`WaitForJobCompletion` returns success iff the succeeded count becomes positive no
later than the failed count does (at a poll before which the failed count was never
positive), and returns an error iff the failed count becomes positive strictly
before the succeeded count does, the error then being the task-failed one. On a
fetched status with both counts zero it does not return at that poll: it sleeps 5
and polls again. -/
theorem WaitForJobCompletion_first_positive_count {σ : Type} (cs : Clientset σ)
    (feed : Nat → JobStatus) (jobName ns : String) :
    ((∃ fuel, (WaitForJobCompletion (statusFeed feed) jobName ns fuel 0).1 = some none) ↔
      ∃ i, 0 < (feed i).Succeeded ∧ ∀ j, j < i → ¬ 0 < (feed j).Failed) ∧
    ((∃ fuel e, (WaitForJobCompletion (statusFeed feed) jobName ns fuel 0).1 = some (some e)) ↔
      ∃ i, 0 < (feed i).Failed ∧ ∀ j, j ≤ i → ¬ 0 < (feed j).Succeeded) ∧
    (∀ fuel e, (WaitForJobCompletion (statusFeed feed) jobName ns fuel 0).1 = some (some e) →
      e = Error.message ("job " ++ jobName ++ " failed")) ∧
    (∀ fuel s s1 job, cs.JobsGet ns jobName s = (.ok job, s1) →
      job.Status.Succeeded = 0 → job.Status.Failed = 0 →
      WaitForJobCompletion cs jobName ns (fuel + 1) s
        = WaitForJobCompletion cs jobName ns fuel (cs.Sleep 5 s1)) := by
  refine ⟨⟨?_, ?_⟩, ⟨?_, ?_⟩, ?_, ?_⟩
  · rintro ⟨fuel, h⟩
    obtain ⟨i, _, _, h3, h4⟩ := (WaitForJobCompletion_feed_success feed jobName ns fuel 0).1 h
    exact ⟨i, h3, fun j hj => (h4 j (Nat.zero_le j) hj).2⟩
  · rintro ⟨i, hi, hq⟩
    have hex : ∃ n, 0 < (feed n).Succeeded := ⟨i, hi⟩
    have hle : Nat.find hex ≤ i := Nat.find_le hi
    refine ⟨Nat.find hex + 1, (WaitForJobCompletion_feed_success feed jobName ns _ 0).2
      ⟨Nat.find hex, Nat.zero_le _, by omega, Nat.find_spec hex, fun j _ hj => ?_⟩⟩
    exact ⟨Nat.find_min hex hj, hq j (by omega)⟩
  · rintro ⟨fuel, e, h⟩
    obtain ⟨_, i, _, _, h3, h4, h5⟩ :=
      (WaitForJobCompletion_feed_failure feed jobName ns e fuel 0).1 h
    refine ⟨i, h3, fun j hj => ?_⟩
    rcases Nat.eq_or_lt_of_le hj with h | h
    · subst h; exact h4
    · exact (h5 j (Nat.zero_le j) h).1
  · rintro ⟨i, hi, hq⟩
    have hex : ∃ n, 0 < (feed n).Failed := ⟨i, hi⟩
    have hle : Nat.find hex ≤ i := Nat.find_le hi
    refine ⟨Nat.find hex + 1, Error.message ("job " ++ jobName ++ " failed"),
      (WaitForJobCompletion_feed_failure feed jobName ns _ _ 0).2
        ⟨rfl, Nat.find hex, Nat.zero_le _, by omega, Nat.find_spec hex, hq _ hle,
          fun j _ hj => ?_⟩⟩
    exact ⟨hq j (by omega), Nat.find_min hex hj⟩
  · intro fuel e h
    exact ((WaitForJobCompletion_feed_failure feed jobName ns e fuel 0).1 h).1
  · intro fuel s s1 job hget hs hf
    simp [WaitForJobCompletion, hget, hs, hf]

/-- Counterexample to C4 as stated: on a status with both counts positive the
poller returns success at once, although the succeeded count did not become
positive before the failed count did (both did at the same poll). -/
theorem WaitForJobCompletion_tie_is_success :
    (WaitForJobCompletion (statusFeed (fun _ => ⟨1, 1⟩)) "job-on-n1" "default" 1 0).1
      = some none ∧
    ¬ ∃ i : Nat, 0 < ((fun (_ : Nat) => (⟨1, 1⟩ : JobStatus)) i).Succeeded ∧
        ∀ j : Nat, j ≤ i → ¬ 0 < ((fun (_ : Nat) => (⟨1, 1⟩ : JobStatus)) j).Failed := by
  refine ⟨by simp [WaitForJobCompletion_feed_step], ?_⟩
  rintro ⟨i, _, h⟩
  exact h i (Nat.le_refl i) (show (0 : Int) < 1 by decide)

/-! ## Theorems: pkg/node -/

/-- The conditions loop leaves `allReady` true iff it was true and no `Ready`
condition has a status other than `True`. -/
theorem conditionsLoop_eq_true (conditions : List PodCondition) (allReady : Bool) :
    conditionsLoop conditions allReady = true ↔
      allReady = true ∧ ∀ c ∈ conditions, c.Type' = "Ready" → c.Status = "True" := by
  induction conditions with
  | nil => simp [conditionsLoop]
  | cons c rest ih =>
    simp only [conditionsLoop, PodReady, ConditionTrue, List.mem_cons, forall_eq_or_imp]
    by_cases h : c.Type' = "Ready" ∧ c.Status ≠ "True"
    · rw [if_pos h]
      constructor
      · intro hf; cases hf
      · rintro ⟨_, h2, _⟩; exact absurd (h2 h.1) h.2
    · rw [if_neg h, ih]
      constructor
      · rintro ⟨h1, h2⟩
        refine ⟨h1, fun ht => ?_, h2⟩
        by_contra hne
        exact h ⟨ht, hne⟩
      · rintro ⟨h1, _, h3⟩
        exact ⟨h1, h3⟩

/-- The pods loop leaves `allReady` true iff it was true and every pod not
`Succeeded` is `Running` with no `Ready` condition of a status other than `True`. -/
theorem podsLoop_eq_true (pods : List Pod) :
    ∀ allReady : Bool, podsLoop pods allReady = true ↔
      allReady = true ∧ ∀ pod ∈ pods, pod.Status.Phase ≠ "Succeeded" →
        pod.Status.Phase = "Running" ∧
        ∀ c ∈ pod.Status.Conditions, c.Type' = "Ready" → c.Status = "True" := by
  induction pods with
  | nil => intro allReady; simp [podsLoop]
  | cons pod rest ih =>
    intro allReady
    simp only [podsLoop, PodSucceeded, PodRunning, List.mem_cons, forall_eq_or_imp]
    by_cases hs : pod.Status.Phase = "Succeeded"
    · rw [if_pos hs, ih]
      constructor
      · rintro ⟨h1, h2⟩; exact ⟨h1, fun hne => absurd hs hne, h2⟩
      · rintro ⟨h1, _, h3⟩; exact ⟨h1, h3⟩
    · rw [if_neg hs]
      by_cases hr : pod.Status.Phase = "Running"
      · rw [if_neg (not_not.2 hr), ih, conditionsLoop_eq_true]
        constructor
        · rintro ⟨⟨h1, h2⟩, h3⟩; exact ⟨h1, fun _ => ⟨hr, h2⟩, h3⟩
        · rintro ⟨h1, h2, h3⟩; exact ⟨⟨h1, (h2 hs).2⟩, h3⟩
      · rw [if_pos hr]
        constructor
        · intro hf; cases hf
        · rintro ⟨_, h2, _⟩; exact absurd (h2 hs).1 hr

/-- C5, as the code has it: at a poll of `WaitForPodsReady` whose listing succeeds,
the gate returns success at that poll iff every listed pod whose phase is not
`Succeeded` has phase `Running` and carries no `Ready` condition whose status is
other than `True` (a running pod with no `Ready` condition counts as ready).
Otherwise it does not return at that poll: it sleeps 10 and polls again. On an
empty listing it returns at once. -/
theorem WaitForPodsReady_returns_iff_no_unready {σ : Type} (cs : Clientset σ)
    (nodeName : String) (s s1 : σ) (pods : List Pod)
    (hlist : cs.PodsList "kube-system" ("spec.nodeName=" ++ nodeName) s = (.ok pods, s1)) :
    ((WaitForPodsReady cs nodeName 1 s).1 = some none ↔
      ∀ pod ∈ pods, pod.Status.Phase ≠ "Succeeded" →
        pod.Status.Phase = "Running" ∧
        ∀ c ∈ pod.Status.Conditions, c.Type' = "Ready" → c.Status = "True") ∧
    (∀ fuel,
      (∀ pod ∈ pods, pod.Status.Phase ≠ "Succeeded" →
        pod.Status.Phase = "Running" ∧
        ∀ c ∈ pod.Status.Conditions, c.Type' = "Ready" → c.Status = "True") →
      WaitForPodsReady cs nodeName (fuel + 1) s = (some none, s1)) ∧
    (∀ fuel,
      ¬ (∀ pod ∈ pods, pod.Status.Phase ≠ "Succeeded" →
        pod.Status.Phase = "Running" ∧
        ∀ c ∈ pod.Status.Conditions, c.Type' = "Ready" → c.Status = "True") →
      WaitForPodsReady cs nodeName (fuel + 1) s
        = WaitForPodsReady cs nodeName fuel (cs.Sleep 10 s1)) ∧
    (pods = [] → ∀ fuel, WaitForPodsReady cs nodeName (fuel + 1) s = (some none, s1)) := by
  have hloop := podsLoop_eq_true pods true
  simp only [true_and] at hloop
  refine ⟨?_, ?_, ?_, ?_⟩
  · rw [← hloop]
    by_cases h : podsLoop pods true = true
    · simp [WaitForPodsReady, hlist, h]
    · simp [WaitForPodsReady, hlist, h]
  · intro fuel h
    simp [WaitForPodsReady, hlist, hloop.2 h]
  · intro fuel h
    have hfalse : podsLoop pods true = false := by
      cases hb : podsLoop pods true with
      | false => rfl
      | true => exact absurd (hloop.1 hb) h
    simp [WaitForPodsReady, hlist, hfalse]
  · intro h fuel
    subst h
    simp [WaitForPodsReady, hlist, podsLoop]

/-- Witness of C5: a cluster whose one system pod on `n1` is running and ready; the
gate returns at the first poll. -/
theorem WaitForPodsReady_returns_iff_no_unready_witness :
    (Cluster.clientset.PodsList "kube-system" ("spec.nodeName=" ++ "n1")
        ⟨[], [], [Pod.system "dns" "n1" "Running" [⟨"Ready", "True"⟩]]⟩
      = (.ok [Pod.system "dns" "n1" "Running" [⟨"Ready", "True"⟩]],
          ⟨[], [], [Pod.system "dns" "n1" "Running" [⟨"Ready", "True"⟩]]⟩)) ∧
    (WaitForPodsReady Cluster.clientset "n1" 1
        ⟨[], [], [Pod.system "dns" "n1" "Running" [⟨"Ready", "True"⟩]]⟩).1 = some none :=
  ⟨by rfl,
    (WaitForPodsReady_returns_iff_no_unready Cluster.clientset "n1"
      ⟨[], [], [Pod.system "dns" "n1" "Running" [⟨"Ready", "True"⟩]]⟩
      ⟨[], [], [Pod.system "dns" "n1" "Running" [⟨"Ready", "True"⟩]]⟩
      [Pod.system "dns" "n1" "Running" [⟨"Ready", "True"⟩]] (by rfl)).1.2
      (by simp [Pod.system])⟩

/-- Counterexample to C5 as stated: a running pod that carries no readiness
condition at all does not hold the gate back. The gate returns success at that
poll, although the pod has no readiness condition whose status is true. -/
theorem WaitForPodsReady_bare_running_pod_passes :
    (Cluster.clientset.PodsList "kube-system" ("spec.nodeName=" ++ "n1")
        ⟨[], [], [Pod.system "dns" "n1" "Running" []]⟩).1
      = .ok [Pod.system "dns" "n1" "Running" []] ∧
    WaitForPodsReady Cluster.clientset "n1" 1 ⟨[], [], [Pod.system "dns" "n1" "Running" []]⟩
      = (some none, ⟨[], [], [Pod.system "dns" "n1" "Running" []]⟩) ∧
    ¬ (∀ pod ∈ [Pod.system "dns" "n1" "Running" []], pod.Status.Phase ≠ "Succeeded" →
        pod.Status.Phase = "Running" ∧
        ∃ c ∈ pod.Status.Conditions, c.Type' = "Ready" ∧ c.Status = "True") := by
  refine ⟨by rfl, by rfl, ?_⟩
  simp [Pod.system]

/-- A map read of the key just written gives the value written. -/
theorem StrMap.get_set_same (m : StrMap) (k v : String) : (m.set k v).get k = some v := by
  induction m with
  | nil => simp [StrMap.set, StrMap.get]
  | cons kv rest ih =>
    obtain ⟨k', v'⟩ := kv
    by_cases h : k' = k
    · simp [StrMap.set, StrMap.get, h]
    · simp [StrMap.set, StrMap.get, h, ih]

/-- A map write leaves the reads of every other key as they were. -/
theorem StrMap.get_set_other (m : StrMap) (k v k2 : String) (hk : k2 ≠ k) :
    (m.set k v).get k2 = m.get k2 := by
  induction m with
  | nil => simp [StrMap.set, StrMap.get, Ne.symm hk]
  | cons kv rest ih =>
    obtain ⟨k', v'⟩ := kv
    by_cases h : k' = k
    · subst h
      simp [StrMap.set, StrMap.get, Ne.symm hk]
    · by_cases h2 : k' = k2
      · subst h2
        simp [StrMap.set, StrMap.get, h]
      · simp [StrMap.set, StrMap.get, h, h2, ih]

/-- C6: `AnnotateNode` merges one key into the node's annotations. When the lookup
fails, its error is returned and no update is issued. When it succeeds, exactly
one update is issued, its error (if any) is returned, and the node handed to it
has an annotation set that maps the key to the value, reads every other key as
the fetched node's set did (an absent set reading as empty), and differs from the
fetched node in no other field. -/
theorem AnnotateNode_merges_key {σ : Type} (cs : Clientset σ) (nodeName key value : String)
    (s : σ) :
    (∀ e s1, cs.NodesGet nodeName s = (.error e, s1) →
      AnnotateNode cs.traced nodeName key value (s, [])
        = (some e, (s1, [ApiCall.NodesGet nodeName]))) ∧
    (∀ node s1, cs.NodesGet nodeName s = (.ok node, s1) →
      ∃ updated m,
        AnnotateNode cs.traced nodeName key value (s, [])
          = (errOf (cs.NodesUpdate updated s1).1,
              ((cs.NodesUpdate updated s1).2,
                [ApiCall.NodesGet nodeName, ApiCall.NodesUpdate updated])) ∧
        updated.ObjectMeta.Annotations = some m ∧
        m.get key = some value ∧
        (∀ k, k ≠ key → m.get k = StrMap.get (node.ObjectMeta.Annotations.getD []) k) ∧
        updated = { node with ObjectMeta := { node.ObjectMeta with Annotations := some m } }) := by
  constructor
  · intro e s1 hget
    simp [AnnotateNode, Clientset.traced, hget]
  · intro node s1 hget
    cases ha : node.ObjectMeta.Annotations with
    | none =>
      refine ⟨annotated node key value, StrMap.set [] key value, ?_, ?_, ?_, ?_, ?_⟩
      · simp [AnnotateNode, Clientset.traced, hget]
      · simp [annotated, ha]
      · exact StrMap.get_set_same [] key value
      · intro k hk
        simpa using StrMap.get_set_other [] key value k hk
      · simp [annotated, ha]
    | some m0 =>
      refine ⟨annotated node key value, StrMap.set m0 key value, ?_, ?_, ?_, ?_, ?_⟩
      · simp [AnnotateNode, Clientset.traced, hget]
      · simp [annotated, ha]
      · exact StrMap.get_set_same m0 key value
      · intro k hk
        simpa using StrMap.get_set_other m0 key value k hk
      · simp [annotated, ha]

/-- Witness of C6: on a cluster whose node `n1` has no annotation set, the set is
created with the one key, the update succeeds and the cluster holds the annotated
node. -/
theorem AnnotateNode_merges_key_witness :
    Cluster.clientset.NodesGet "n1" ⟨[], [Node.ofName "n1"], []⟩
      = (.ok (Node.ofName "n1"), ⟨[], [Node.ofName "n1"], []⟩) ∧
    AnnotateNode Cluster.clientset "n1" "job-complete" "2024-01-01T00:00:00Z"
        ⟨[], [Node.ofName "n1"], []⟩
      = (none, ⟨[], [annotated (Node.ofName "n1") "job-complete" "2024-01-01T00:00:00Z"], []⟩) ∧
    ∃ updated m,
      AnnotateNode Cluster.clientset.traced "n1" "job-complete" "2024-01-01T00:00:00Z"
          (⟨[], [Node.ofName "n1"], []⟩, [])
        = (errOf (Cluster.clientset.NodesUpdate updated ⟨[], [Node.ofName "n1"], []⟩).1,
            ((Cluster.clientset.NodesUpdate updated ⟨[], [Node.ofName "n1"], []⟩).2,
              [ApiCall.NodesGet "n1", ApiCall.NodesUpdate updated])) ∧
      updated.ObjectMeta.Annotations = some m ∧
      m.get "job-complete" = some "2024-01-01T00:00:00Z" ∧
      (∀ k, k ≠ "job-complete" →
        m.get k = StrMap.get ((Node.ofName "n1").ObjectMeta.Annotations.getD []) k) ∧
      updated = { Node.ofName "n1" with
        ObjectMeta := { (Node.ofName "n1").ObjectMeta with Annotations := some m } } :=
  ⟨by rfl, by rfl,
    (AnnotateNode_merges_key Cluster.clientset "n1" "job-complete" "2024-01-01T00:00:00Z"
      ⟨[], [Node.ofName "n1"], []⟩).2 (Node.ofName "n1") ⟨[], [Node.ofName "n1"], []⟩ (by rfl)⟩

/-! ## Theorems: cmd/root.go -/

/-- The loop over a list of nodes followed by more nodes: when the first part ends
without an exit, the run goes on with the rest from the state reached. -/
theorem runKadminLoop_append {σ : Type} (st : Steps σ) (cfg : Config) (pre post : List String) :
    ∀ (s s1 : σ) (lg lg1 : List LogEntry),
      runKadminLoop st cfg pre s lg = (Ctl.next, s1, lg1) →
      runKadminLoop st cfg (pre ++ post) s lg = runKadminLoop st cfg post s1 lg1 := by
  induction pre with
  | nil =>
    intro s s1 lg lg1 h
    simp only [runKadminLoop, Prod.mk.injEq, true_and] at h
    obtain ⟨h1, h2⟩ := h
    subst h1; subst h2
    rfl
  | cons n pre ih =>
    intro s s1 lg lg1 h
    simp only [List.cons_append, runKadminLoop] at h ⊢
    rcases hb : runKadminBody st cfg n s lg with ⟨c, s2, lg2⟩
    rw [hb] at h
    cases c with
    | next => exact ih s2 s1 lg2 lg1 h
    | exit code => simp at h

/-- What one pass of the loop body adds to the trace: it starts with the drain of
the node and drains no other; and either the pass goes on to the next node and no
dispatch in it failed, or it exits with status 1 right after the uncordon that
follows a failed dispatch. -/
theorem runKadminBody_traced_shape {σ : Type} (st : Steps σ) (cfg : Config) (n : String)
    (s : σ) (tr : Trace) (lg : List LogEntry) :
    ∃ ext, (runKadminBody st.traced cfg n (s, tr) lg).2.1.2 = tr ++ ext ∧
      ext.filterMap drainedNode = [n] ∧
      (((runKadminBody st.traced cfg n (s, tr) lg).1 = Ctl.next ∧
          ∀ x ∈ ext, failedDispatch x = false) ∨
        ((runKadminBody st.traced cfg n (s, tr) lg).1 = Ctl.exit 1 ∧
          ∃ ext0 e ru, ext = ext0 ++
            [(Call.CreateNodeJob n ("job-on-" ++ n) cfg.ns cfg.jobImage cfg.jobCommand, some e),
             (Call.UncordonNode n, ru)])) := by
  rcases h1 : st.DrainNode n s with ⟨_ | e1, s1⟩
  · rcases h2 : st.CreateNodeJob n ("job-on-" ++ n) cfg.ns cfg.jobImage cfg.jobCommand s1
      with ⟨_ | e2, s2⟩
    · rcases h3 : st.WaitForJobCompletion ("job-on-" ++ n) cfg.ns s2 with ⟨_ | e3, s3⟩
      · rcases h4 : st.UncordonNode n s3 with ⟨_ | e4, s4⟩
        · rcases h5 : st.WaitForPodsReady n s4 with ⟨_ | e5, s5⟩
          · rcases h6 : st.Now s5 with ⟨now, s6⟩
            rcases h7 : st.AnnotateNode n "job-complete" now s6 with ⟨_ | e7, s7⟩
            · refine ⟨fullTrace cfg n now, ?_, ?_, ?_⟩ <;>
                simp [runKadminBody, Steps.traced, h1, h2, h3, h4, h5, h6, h7, fullTrace,
                  drainedNode, failedDispatch]
            · refine ⟨[(Call.DrainNode n, none),
                (Call.CreateNodeJob n ("job-on-" ++ n) cfg.ns cfg.jobImage cfg.jobCommand, none),
                (Call.WaitForJobCompletion ("job-on-" ++ n) cfg.ns, none),
                (Call.UncordonNode n, none), (Call.WaitForPodsReady n, none),
                (Call.AnnotateNode n "job-complete" now, some e7)], ?_, ?_, ?_⟩ <;>
                simp [runKadminBody, Steps.traced, h1, h2, h3, h4, h5, h6, h7,
                  drainedNode, failedDispatch]
          · refine ⟨[(Call.DrainNode n, none),
              (Call.CreateNodeJob n ("job-on-" ++ n) cfg.ns cfg.jobImage cfg.jobCommand, none),
              (Call.WaitForJobCompletion ("job-on-" ++ n) cfg.ns, none),
              (Call.UncordonNode n, none), (Call.WaitForPodsReady n, some e5)], ?_, ?_, ?_⟩ <;>
              simp [runKadminBody, Steps.traced, h1, h2, h3, h4, h5, drainedNode, failedDispatch]
        · refine ⟨[(Call.DrainNode n, none),
            (Call.CreateNodeJob n ("job-on-" ++ n) cfg.ns cfg.jobImage cfg.jobCommand, none),
            (Call.WaitForJobCompletion ("job-on-" ++ n) cfg.ns, none),
            (Call.UncordonNode n, some e4)], ?_, ?_, ?_⟩ <;>
            simp [runKadminBody, Steps.traced, h1, h2, h3, h4, drainedNode, failedDispatch]
      · refine ⟨[(Call.DrainNode n, none),
          (Call.CreateNodeJob n ("job-on-" ++ n) cfg.ns cfg.jobImage cfg.jobCommand, none),
          (Call.WaitForJobCompletion ("job-on-" ++ n) cfg.ns, some e3)], ?_, ?_, ?_⟩ <;>
          simp [runKadminBody, Steps.traced, h1, h2, h3, drainedNode, failedDispatch]
    · rcases h3 : st.UncordonNode n s2 with ⟨_ | e3, s3⟩
      · refine ⟨[(Call.DrainNode n, none),
          (Call.CreateNodeJob n ("job-on-" ++ n) cfg.ns cfg.jobImage cfg.jobCommand, some e2),
          (Call.UncordonNode n, none)], ?_, ?_, Or.inr ⟨?_, [(Call.DrainNode n, none)], e2, none, ?_⟩⟩ <;>
          simp [runKadminBody, Steps.traced, h1, h2, h3, drainedNode]
      · refine ⟨[(Call.DrainNode n, none),
          (Call.CreateNodeJob n ("job-on-" ++ n) cfg.ns cfg.jobImage cfg.jobCommand, some e2),
          (Call.UncordonNode n, some e3)], ?_, ?_,
          Or.inr ⟨?_, [(Call.DrainNode n, none)], e2, some e3, ?_⟩⟩ <;>
          simp [runKadminBody, Steps.traced, h1, h2, h3, drainedNode]
  · refine ⟨[(Call.DrainNode n, some e1)], ?_, ?_, ?_⟩ <;>
      simp [runKadminBody, Steps.traced, h1, drainedNode, failedDispatch]

/-- What a run of the loop adds to the trace. Either the loop ends without an
exit, no dispatch in it failed and the nodes drained are the nodes listed, in
order; or it exits with status 1 right after the uncordon that follows a failed
dispatch, and the nodes drained are the first nodes of the list, in order. -/
theorem runKadminLoop_traced_shape {σ : Type} (st : Steps σ) (cfg : Config) :
    ∀ (nodes : List String) (s : σ) (tr : Trace) (lg : List LogEntry),
      ∃ ext, (runKadminLoop st.traced cfg nodes (s, tr) lg).2.1.2 = tr ++ ext ∧
        (((runKadminLoop st.traced cfg nodes (s, tr) lg).1 = Ctl.next ∧
            (∀ x ∈ ext, failedDispatch x = false) ∧ ext.filterMap drainedNode = nodes) ∨
          ((runKadminLoop st.traced cfg nodes (s, tr) lg).1 = Ctl.exit 1 ∧
            (∃ ext0 n e ru, ext = ext0 ++
              [(Call.CreateNodeJob n ("job-on-" ++ n) cfg.ns cfg.jobImage cfg.jobCommand, some e),
               (Call.UncordonNode n, ru)]) ∧
            ∃ t, ext.filterMap drainedNode ++ t = nodes)) := by
  intro nodes
  induction nodes with
  | nil =>
    intro s tr lg
    exact ⟨[], by simp [runKadminLoop], Or.inl ⟨rfl, by simp, rfl⟩⟩
  | cons n rest ih =>
    intro s tr lg
    obtain ⟨e1, hb, hd, hcase⟩ := runKadminBody_traced_shape st cfg n s tr lg
    rcases hbody : runKadminBody st.traced cfg n (s, tr) lg with ⟨c, ⟨s1, tr1⟩, lg1⟩
    rw [hbody] at hb hcase
    simp only at hb hcase
    subst hb
    rcases hcase with ⟨hc, hnf⟩ | ⟨hc, ext0, e, ru, hext⟩
    · subst hc
      obtain ⟨e2, h2, hcase2⟩ := ih s1 (tr ++ e1) lg1
      have hloop : runKadminLoop st.traced cfg (n :: rest) (s, tr) lg
          = runKadminLoop st.traced cfg rest (s1, tr ++ e1) lg1 := by
        simp [runKadminLoop, hbody]
      rw [hloop]
      refine ⟨e1 ++ e2, by rw [h2, List.append_assoc], ?_⟩
      rcases hcase2 with ⟨hc2, hnf2, hd2⟩ | ⟨hc2, ⟨ext3, n3, e3, ru3, hext3⟩, t, ht⟩
      · refine Or.inl ⟨hc2, ?_, ?_⟩
        · intro x hx
          rcases List.mem_append.1 hx with h | h
          · exact hnf x h
          · exact hnf2 x h
        · rw [List.filterMap_append, hd, hd2]; rfl
      · refine Or.inr ⟨hc2, ⟨e1 ++ ext3, n3, e3, ru3, ?_⟩, t, ?_⟩
        · rw [hext3, List.append_assoc]
        · rw [List.filterMap_append, hd, ← ht]; rfl
    · subst hc
      have hloop : runKadminLoop st.traced cfg (n :: rest) (s, tr) lg
          = (Ctl.exit 1, (s1, tr ++ e1), lg1) := by
        simp [runKadminLoop, hbody]
      rw [hloop]
      exact ⟨e1, rfl, Or.inr ⟨rfl, ⟨ext0, n, e, ru, hext⟩, rest, by rw [hd]; rfl⟩⟩

/-- C1, as the code has it: in a run of `runKadmin` whose client is built and whose
nodes are listed, the exit status is 0 or 1, and it is non-zero exactly when the
dispatch (`CreateNodeJob`) of some node failed. The run then ended right after the
uncordon attempted for that node, whatever that uncordon returned. -/
theorem runKadmin_exits_nonzero_iff_dispatch_fails {σ : Type} (st : Steps σ) (cfg : Config)
    (s s1 s2 : σ) (nodes : List Node)
    (hclient : st.NewKubeClient s = (none, s1)) (hlist : st.NodesList s1 = (.ok nodes, s2)) :
    ((runKadmin st.traced cfg (s, [])).1 = 0 ∨ (runKadmin st.traced cfg (s, [])).1 = 1) ∧
    ((runKadmin st.traced cfg (s, [])).1 ≠ 0 ↔
      ∃ x ∈ (runKadmin st.traced cfg (s, [])).2.1.2, failedDispatch x = true) ∧
    ((runKadmin st.traced cfg (s, [])).1 ≠ 0 →
      ∃ tr0 n e ru, (runKadmin st.traced cfg (s, [])).2.1.2 = tr0 ++
        [(Call.CreateNodeJob n ("job-on-" ++ n) cfg.ns cfg.jobImage cfg.jobCommand, some e),
         (Call.UncordonNode n, ru)]) := by
  obtain ⟨ext, htr, hcase⟩ := runKadminLoop_traced_shape st cfg
    (nodes.map (fun node => node.ObjectMeta.Name)) s2 [] []
  rcases hloop : runKadminLoop st.traced cfg (nodes.map (fun node => node.ObjectMeta.Name))
    (s2, []) [] with ⟨c, ⟨s3, tr3⟩, lg3⟩
  rw [hloop] at htr hcase
  simp only [List.nil_append] at htr hcase
  subst htr
  have hlist2 : st.traced.NodesList (s1, []) = (.ok nodes, (s2, [])) := by
    simp [Steps.traced, hlist]
  have hclient2 : st.traced.NewKubeClient (s, []) = (none, (s1, [])) := by
    simp [Steps.traced, hclient]
  rcases hcase with ⟨hc, hnf, _⟩ | ⟨hc, ⟨ext0, n, e, ru, hext⟩, _⟩
  · subst hc
    have hrun : runKadmin st.traced cfg (s, []) = (0, (s3, tr3), lg3) := by
      simp [runKadmin, hclient2, hlist2, hloop]
    rw [hrun]
    refine ⟨Or.inl rfl, ?_, ?_⟩
    · constructor
      · intro h; exact absurd rfl h
      · rintro ⟨x, hx, hfx⟩
        rw [hnf x hx] at hfx
        cases hfx
    · intro h; exact absurd rfl h
  · subst hc
    have hrun : runKadmin st.traced cfg (s, []) = (1, (s3, tr3), lg3) := by
      simp [runKadmin, hclient2, hlist2, hloop]
    rw [hrun]
    refine ⟨Or.inr rfl, ?_, ?_⟩
    · constructor
      · intro _
        refine ⟨(Call.CreateNodeJob n ("job-on-" ++ n) cfg.ns cfg.jobImage cfg.jobCommand,
          some e), ?_, rfl⟩
        rw [hext]
        simp
      · intro _; simp
    · intro _
      exact ⟨ext0, n, e, ru, hext⟩

/-- Witness of C1: a run over `n1`, `n2` in which every dispatch fails. -/
theorem runKadmin_exits_nonzero_iff_dispatch_fails_witness :
    (Steps.scripted [Node.ofName "n1", Node.ofName "n2"] "t" dispatchFails).NewKubeClient ()
      = (none, ()) ∧
    (Steps.scripted [Node.ofName "n1", Node.ofName "n2"] "t" dispatchFails).NodesList ()
      = (.ok [Node.ofName "n1", Node.ofName "n2"], ()) ∧
    ((runKadmin (Steps.scripted [Node.ofName "n1", Node.ofName "n2"] "t" dispatchFails).traced
        Config.defaults ((), [])).1 ≠ 0 ↔
      ∃ x ∈ (runKadmin (Steps.scripted [Node.ofName "n1", Node.ofName "n2"] "t"
        dispatchFails).traced Config.defaults ((), [])).2.1.2, failedDispatch x = true) :=
  ⟨rfl, rfl,
    (runKadmin_exits_nonzero_iff_dispatch_fails
      (Steps.scripted [Node.ofName "n1", Node.ofName "n2"] "t" dispatchFails) Config.defaults
      () () () [Node.ofName "n1", Node.ofName "n2"] rfl rfl).2.1⟩

/-- Counterexample to C1 as stated: the dispatch of `n1` fails and the uncordon
that follows succeeds, yet the run exits with status 1 right there; `n2` is never
processed. -/
theorem runKadmin_exits_although_uncordon_succeeds :
    runKadmin (Steps.scripted [Node.ofName "n1", Node.ofName "n2"] "t" dispatchFails).traced
        Config.defaults ((), [])
      = (1,
          ((), [(Call.DrainNode "n1", none),
            (Call.CreateNodeJob "n1" "job-on-n1" "default" "busybox:latest"
              ["sh", "-c", "echo Hello && sleep 5"], some (Error.transport "connection refused")),
            (Call.UncordonNode "n1", none)]),
          [logInfo "n1" "Processing node",
            logError (Error.transport "connection refused") "n1"
              "Failed to create job for node"]) := by
  rfl

/-- C2: when the run reaches a node whose drain succeeds, whose dispatch fails and
whose uncordon then fails, it exits with status 1 there. The trace ends with these
three calls: no wait, readiness or annotate step is invoked for the node, and no
step for any node after it. -/
theorem runKadmin_aborts_on_dispatch_and_uncordon_failure {σ : Type} (st : Steps σ)
    (cfg : Config) (pre : List String) (nodeName : String) (rest : List String)
    (x0 : σ × Trace) (lg0 : List LogEntry) (s s1 s2 s3 : σ) (tr : Trace) (lg : List LogEntry)
    (e1 e2 : Error)
    (hpre : runKadminLoop st.traced cfg pre x0 lg0 = (Ctl.next, (s, tr), lg))
    (hdrain : st.DrainNode nodeName s = (none, s1))
    (hcreate : st.CreateNodeJob nodeName ("job-on-" ++ nodeName) cfg.ns cfg.jobImage
      cfg.jobCommand s1 = (some e1, s2))
    (huncordon : st.UncordonNode nodeName s2 = (some e2, s3)) :
    runKadminLoop st.traced cfg (pre ++ nodeName :: rest) x0 lg0
      = (Ctl.exit 1,
          (s3, tr ++ [(Call.DrainNode nodeName, none),
            (Call.CreateNodeJob nodeName ("job-on-" ++ nodeName) cfg.ns cfg.jobImage
              cfg.jobCommand, some e1),
            (Call.UncordonNode nodeName, some e2)]),
          lg ++ [logInfo nodeName "Processing node",
            logError e1 nodeName "Failed to create job for node",
            logError e2 nodeName "Failed to uncordon node"]) := by
  rw [runKadminLoop_append st.traced cfg pre (nodeName :: rest) x0 (s, tr) lg0 lg hpre]
  simp [runKadminLoop, runKadminBody, Steps.traced, hdrain, hcreate, huncordon]

/-- Witness of C2 (scenario C): nodes `n2`, `n3`, `n4`; the run has passed `n2`,
whose drain failed; on `n3` dispatch and uncordon fail; `n4` is never touched. -/
theorem runKadmin_aborts_on_dispatch_and_uncordon_failure_witness :
    runKadminLoop (Steps.scripted [] "t"
        (fun c => if c = Call.DrainNode "n2" then some (Error.policy "pdb")
          else dispatchAndUncordonFail c)).traced
      Config.defaults (["n2"] ++ "n3" :: ["n4"]) ((), []) []
      = (Ctl.exit 1,
          ((), [(Call.DrainNode "n2", some (Error.policy "pdb"))] ++
            [(Call.DrainNode "n3", none),
              (Call.CreateNodeJob "n3" ("job-on-" ++ "n3") Config.defaults.ns
                Config.defaults.jobImage Config.defaults.jobCommand,
                some (Error.transport "connection refused")),
              (Call.UncordonNode "n3", some (Error.transport "connection reset"))]),
          [logInfo "n2" "Processing node",
            logError (Error.policy "pdb") "n2" "Failed to drain node"] ++
            [logInfo "n3" "Processing node",
              logError (Error.transport "connection refused") "n3"
                "Failed to create job for node",
              logError (Error.transport "connection reset") "n3" "Failed to uncordon node"]) :=
  runKadmin_aborts_on_dispatch_and_uncordon_failure
    (Steps.scripted [] "t"
      (fun c => if c = Call.DrainNode "n2" then some (Error.policy "pdb")
        else dispatchAndUncordonFail c))
    Config.defaults ["n2"] "n3" ["n4"] ((), []) [] () () () ()
    [(Call.DrainNode "n2", some (Error.policy "pdb"))]
    [logInfo "n2" "Processing node", logError (Error.policy "pdb") "n2" "Failed to drain node"]
    (Error.transport "connection refused") (Error.transport "connection reset")
    (by rfl) (by rfl) (by rfl) (by rfl)

/-- C7: when the run reaches a node and the first step to fail for it is the drain,
the completion wait, the uncordon, the readiness wait or the annotation, no later
step is invoked for that node, the run does not exit, and it goes on with the next
node of the list from the state the failed step left. After a failed drain neither
dispatch nor uncordon is called; after a failed completion wait uncordon is not
called. -/
theorem runKadmin_skips_node_on_step_failure {σ : Type} (st : Steps σ) (cfg : Config)
    (pre : List String) (nodeName : String) (rest : List String)
    (x0 : σ × Trace) (lg0 : List LogEntry) (s : σ) (tr : Trace) (lg : List LogEntry) (e : Error)
    (hpre : runKadminLoop st.traced cfg pre x0 lg0 = (Ctl.next, (s, tr), lg)) :
    (∀ s1, st.DrainNode nodeName s = (some e, s1) →
      runKadminLoop st.traced cfg (pre ++ nodeName :: rest) x0 lg0
        = runKadminLoop st.traced cfg rest
            (s1, tr ++ [(Call.DrainNode nodeName, some e)])
            (lg ++ [logInfo nodeName "Processing node",
              logError e nodeName "Failed to drain node"])) ∧
    (∀ s1 s2 s3, st.DrainNode nodeName s = (none, s1) →
      st.CreateNodeJob nodeName ("job-on-" ++ nodeName) cfg.ns cfg.jobImage cfg.jobCommand s1
        = (none, s2) →
      st.WaitForJobCompletion ("job-on-" ++ nodeName) cfg.ns s2 = (some e, s3) →
      runKadminLoop st.traced cfg (pre ++ nodeName :: rest) x0 lg0
        = runKadminLoop st.traced cfg rest
            (s3, tr ++ [(Call.DrainNode nodeName, none),
              (Call.CreateNodeJob nodeName ("job-on-" ++ nodeName) cfg.ns cfg.jobImage
                cfg.jobCommand, none),
              (Call.WaitForJobCompletion ("job-on-" ++ nodeName) cfg.ns, some e)])
            (lg ++ [logInfo nodeName "Processing node",
              logError e nodeName "Failed to wait for job completion"])) ∧
    (∀ s1 s2 s3 s4, st.DrainNode nodeName s = (none, s1) →
      st.CreateNodeJob nodeName ("job-on-" ++ nodeName) cfg.ns cfg.jobImage cfg.jobCommand s1
        = (none, s2) →
      st.WaitForJobCompletion ("job-on-" ++ nodeName) cfg.ns s2 = (none, s3) →
      st.UncordonNode nodeName s3 = (some e, s4) →
      runKadminLoop st.traced cfg (pre ++ nodeName :: rest) x0 lg0
        = runKadminLoop st.traced cfg rest
            (s4, tr ++ [(Call.DrainNode nodeName, none),
              (Call.CreateNodeJob nodeName ("job-on-" ++ nodeName) cfg.ns cfg.jobImage
                cfg.jobCommand, none),
              (Call.WaitForJobCompletion ("job-on-" ++ nodeName) cfg.ns, none),
              (Call.UncordonNode nodeName, some e)])
            (lg ++ [logInfo nodeName "Processing node",
              logError e nodeName "Failed to uncordon node"])) ∧
    (∀ s1 s2 s3 s4 s5, st.DrainNode nodeName s = (none, s1) →
      st.CreateNodeJob nodeName ("job-on-" ++ nodeName) cfg.ns cfg.jobImage cfg.jobCommand s1
        = (none, s2) →
      st.WaitForJobCompletion ("job-on-" ++ nodeName) cfg.ns s2 = (none, s3) →
      st.UncordonNode nodeName s3 = (none, s4) →
      st.WaitForPodsReady nodeName s4 = (some e, s5) →
      runKadminLoop st.traced cfg (pre ++ nodeName :: rest) x0 lg0
        = runKadminLoop st.traced cfg rest
            (s5, tr ++ [(Call.DrainNode nodeName, none),
              (Call.CreateNodeJob nodeName ("job-on-" ++ nodeName) cfg.ns cfg.jobImage
                cfg.jobCommand, none),
              (Call.WaitForJobCompletion ("job-on-" ++ nodeName) cfg.ns, none),
              (Call.UncordonNode nodeName, none),
              (Call.WaitForPodsReady nodeName, some e)])
            (lg ++ [logInfo nodeName "Processing node",
              logError e nodeName "Failed to wait for pods to become ready"])) ∧
    (∀ s1 s2 s3 s4 s5 s6 s7 now, st.DrainNode nodeName s = (none, s1) →
      st.CreateNodeJob nodeName ("job-on-" ++ nodeName) cfg.ns cfg.jobImage cfg.jobCommand s1
        = (none, s2) →
      st.WaitForJobCompletion ("job-on-" ++ nodeName) cfg.ns s2 = (none, s3) →
      st.UncordonNode nodeName s3 = (none, s4) →
      st.WaitForPodsReady nodeName s4 = (none, s5) →
      st.Now s5 = (now, s6) →
      st.AnnotateNode nodeName "job-complete" now s6 = (some e, s7) →
      runKadminLoop st.traced cfg (pre ++ nodeName :: rest) x0 lg0
        = runKadminLoop st.traced cfg rest
            (s7, tr ++ [(Call.DrainNode nodeName, none),
              (Call.CreateNodeJob nodeName ("job-on-" ++ nodeName) cfg.ns cfg.jobImage
                cfg.jobCommand, none),
              (Call.WaitForJobCompletion ("job-on-" ++ nodeName) cfg.ns, none),
              (Call.UncordonNode nodeName, none),
              (Call.WaitForPodsReady nodeName, none),
              (Call.AnnotateNode nodeName "job-complete" now, some e)])
            (lg ++ [logInfo nodeName "Processing node",
              logError e nodeName "Failed to annotate node"])) := by
  rw [runKadminLoop_append st.traced cfg pre (nodeName :: rest) x0 (s, tr) lg0 lg hpre]
  refine ⟨?_, ?_, ?_, ?_, ?_⟩
  · intro s1 h1
    simp [runKadminLoop, runKadminBody, Steps.traced, h1]
  · intro s1 s2 s3 h1 h2 h3
    simp [runKadminLoop, runKadminBody, Steps.traced, h1, h2, h3]
  · intro s1 s2 s3 s4 h1 h2 h3 h4
    simp [runKadminLoop, runKadminBody, Steps.traced, h1, h2, h3, h4]
  · intro s1 s2 s3 s4 s5 h1 h2 h3 h4 h5
    simp [runKadminLoop, runKadminBody, Steps.traced, h1, h2, h3, h4, h5]
  · intro s1 s2 s3 s4 s5 s6 s7 now h1 h2 h3 h4 h5 h6 h7
    simp [runKadminLoop, runKadminBody, Steps.traced, h1, h2, h3, h4, h5, h6, h7]

/-- Witness of C7 (scenario B): nodes `n2`, `n3`; the drain of `n2` fails, so `n2`
sees no other step, and `n3` is processed in full. -/
theorem runKadmin_skips_node_on_step_failure_witness :
    runKadminLoop (Steps.scripted [] "t"
        (failing (Call.DrainNode "n2") (Error.policy "pdb"))).traced
      Config.defaults [] ((), []) [] = (Ctl.next, ((), []), []) ∧
    (Steps.scripted [] "t" (failing (Call.DrainNode "n2") (Error.policy "pdb"))).DrainNode
      "n2" () = (some (Error.policy "pdb"), ()) ∧
    runKadminLoop (Steps.scripted [] "t"
        (failing (Call.DrainNode "n2") (Error.policy "pdb"))).traced
      Config.defaults ([] ++ "n2" :: ["n3"]) ((), []) []
      = (Ctl.next,
          ((), [(Call.DrainNode "n2", some (Error.policy "pdb")),
            (Call.DrainNode "n3", none),
            (Call.CreateNodeJob "n3" "job-on-n3" "default" "busybox:latest"
              ["sh", "-c", "echo Hello && sleep 5"], none),
            (Call.WaitForJobCompletion "job-on-n3" "default", none),
            (Call.UncordonNode "n3", none),
            (Call.WaitForPodsReady "n3", none),
            (Call.AnnotateNode "n3" "job-complete" "t", none)]),
          [logInfo "n2" "Processing node",
            logError (Error.policy "pdb") "n2" "Failed to drain node",
            logInfo "n3" "Processing node",
            logInfo "n3" "Successfully completed processing"]) :=
  ⟨by rfl, by rfl,
    ((runKadmin_skips_node_on_step_failure
      (Steps.scripted [] "t" (failing (Call.DrainNode "n2") (Error.policy "pdb")))
      Config.defaults [] "n2" ["n3"] ((), []) [] () [] [] (Error.policy "pdb")
      (by rfl)).1 () (by rfl)).trans (by rfl)⟩

/-- C8: nodes are processed in the order listed, and a node on which no step fails
sees exactly the six steps, once each and in order: drain, dispatch of the task
`job-on-` followed by the node name, completion wait on that task name and the same
namespace, uncordon, readiness wait, annotation under the key `job-complete`. The
node is then logged as completed and the run goes on with the next node. In every
run the nodes drained are the first nodes of the list, in order, and all of them
when the run does not exit. -/
theorem runKadmin_runs_six_steps_in_order {σ : Type} (st : Steps σ) (cfg : Config)
    (pre : List String) (nodeName : String) (rest : List String)
    (x0 : σ × Trace) (lg0 : List LogEntry) (s s1 s2 s3 s4 s5 s6 s7 : σ) (now : String)
    (tr : Trace) (lg : List LogEntry)
    (hpre : runKadminLoop st.traced cfg pre x0 lg0 = (Ctl.next, (s, tr), lg))
    (hdrain : st.DrainNode nodeName s = (none, s1))
    (hcreate : st.CreateNodeJob nodeName ("job-on-" ++ nodeName) cfg.ns cfg.jobImage
      cfg.jobCommand s1 = (none, s2))
    (hwait : st.WaitForJobCompletion ("job-on-" ++ nodeName) cfg.ns s2 = (none, s3))
    (huncordon : st.UncordonNode nodeName s3 = (none, s4))
    (hready : st.WaitForPodsReady nodeName s4 = (none, s5))
    (hnow : st.Now s5 = (now, s6))
    (hannotate : st.AnnotateNode nodeName "job-complete" now s6 = (none, s7)) :
    runKadminLoop st.traced cfg (pre ++ nodeName :: rest) x0 lg0
      = runKadminLoop st.traced cfg rest
          (s7, tr ++ [(Call.DrainNode nodeName, none),
            (Call.CreateNodeJob nodeName ("job-on-" ++ nodeName) cfg.ns cfg.jobImage
              cfg.jobCommand, none),
            (Call.WaitForJobCompletion ("job-on-" ++ nodeName) cfg.ns, none),
            (Call.UncordonNode nodeName, none),
            (Call.WaitForPodsReady nodeName, none),
            (Call.AnnotateNode nodeName "job-complete" now, none)])
          (lg ++ [logInfo nodeName "Processing node",
            logInfo nodeName "Successfully completed processing"]) ∧
    (∀ (nodes : List String) (y : σ) (lg1 : List LogEntry),
      (∃ t, (runKadminLoop st.traced cfg nodes (y, []) lg1).2.1.2.filterMap drainedNode ++ t
        = nodes) ∧
      ((runKadminLoop st.traced cfg nodes (y, []) lg1).1 = Ctl.next →
        (runKadminLoop st.traced cfg nodes (y, []) lg1).2.1.2.filterMap drainedNode = nodes)) := by
  constructor
  · rw [runKadminLoop_append st.traced cfg pre (nodeName :: rest) x0 (s, tr) lg0 lg hpre]
    simp [runKadminLoop, runKadminBody, Steps.traced, hdrain, hcreate, hwait, huncordon,
      hready, hnow, hannotate]
  · intro nodes y lg1
    obtain ⟨ext, htr, hcase⟩ := runKadminLoop_traced_shape st cfg nodes y [] lg1
    rw [htr]
    simp only [List.nil_append]
    rcases hcase with ⟨_, _, hd⟩ | ⟨hc, _, t, ht⟩
    · exact ⟨⟨[], by rw [hd, List.append_nil]⟩, fun _ => hd⟩
    · refine ⟨⟨t, ht⟩, fun h => ?_⟩
      rw [hc] at h
      cases h

/-- Witness of C8 (scenario A): the one node `n1`, every step succeeding. -/
theorem runKadmin_runs_six_steps_in_order_witness :
    runKadminLoop (Steps.scripted [] "2024-01-01T00:00:00Z" (fun _ => none)).traced
      Config.defaults ([] ++ "n1" :: []) ((), []) []
      = (Ctl.next,
          ((), [(Call.DrainNode "n1", none),
            (Call.CreateNodeJob "n1" "job-on-n1" "default" "busybox:latest"
              ["sh", "-c", "echo Hello && sleep 5"], none),
            (Call.WaitForJobCompletion "job-on-n1" "default", none),
            (Call.UncordonNode "n1", none),
            (Call.WaitForPodsReady "n1", none),
            (Call.AnnotateNode "n1" "job-complete" "2024-01-01T00:00:00Z", none)]),
          [logInfo "n1" "Processing node", logInfo "n1" "Successfully completed processing"]) :=
  ((runKadmin_runs_six_steps_in_order
    (Steps.scripted [] "2024-01-01T00:00:00Z" (fun _ => none)) Config.defaults [] "n1" []
    ((), []) [] () () () () () () () () "2024-01-01T00:00:00Z" [] []
    (by rfl) (by rfl) (by rfl) (by rfl) (by rfl) (by rfl) (by rfl) (by rfl)).1).trans (by rfl)

end Kadmin
